import Mathlib

/-!
Shallow embedding of the social-network API backend (routers, models and
schemas) and proofs about its authorization, invariant and error-handling
behaviour.

Conventions of the embedding:
* The relational store (`Store`) holds one list of rows per table, plus the
  autoincrement counter `nextId` used by `flush` to assign server ids.
  Timestamp columns (`created_at`-style `default_factory` fields) are not read
  by any handler logic and are omitted from the rows.
* Each FastAPI handler becomes a function from the committed store and its
  request arguments to `Except ApiError Store`: `.ok db'` models a committed
  transaction (the session wrapper `get_session` commits on success) and
  `.error e` models a rolled-back transaction (the wrapper rolls back on any
  exception), so on `.error` the committed store is unchanged by construction.
* Handlers that issue flushes before a possible failure are additionally given
  a `_txn` form returning `Except (ApiError × Store) Store`, where the store
  carried by the error is the transaction-local state at raise time
  (everything flushed so far); the endpoint form discards it, mirroring the
  rollback in `app/database.py:get_session`.
* `SELECT ... WHERE` with `scalar_one_or_none()` becomes `List.find?`;
  `func.count` becomes `List.filter` + `length`.  SQL `col = NULL` never
  matches, which the `Option Nat` comparisons below reproduce.
-/

namespace SocialNet

/-- Error taxonomy of the handlers: `HTTPException` status codes raised in the
routers, plus pydantic model-validation rejections (which FastAPI surfaces
before the handler runs). -/
inductive ApiError where
  | notFound (detail : String)
  | forbidden (detail : String)
  | badRequest (detail : String)
  | validationError (detail : String)
deriving DecidableEq, Repr

def ApiError.statusCode : ApiError → Nat
  | .notFound _ => 404
  | .forbidden _ => 403
  | .badRequest _ => 400
  | .validationError _ => 422

/-- `app.models.GroupType` (`private` being a Lean keyword, that constructor
is spelled `private_`). -/
inductive GroupType where
  | public | private_ | secret
deriving DecidableEq, Repr

/-- `app.models.ThreadContext`. -/
inductive ThreadContext where
  | group | event
deriving DecidableEq, Repr

/-- `app.models.User` (timestamps omitted: unread by handler logic). -/
structure UserRow where
  id : Nat
  email : String
  full_name : String
  hashed_password : String
  is_active : Bool
deriving DecidableEq, Repr

/-- `app.models.Group`. -/
structure GroupRow where
  id : Nat
  name : String
  description : Option String
  type : GroupType
  allow_member_posts : Bool
  allow_member_events : Bool
  created_by_id : Nat
deriving DecidableEq, Repr

/-- `app.models.GroupMembership`. -/
structure GroupMembershipRow where
  id : Nat
  group_id : Nat
  user_id : Nat
  is_admin : Bool
  can_create_events : Bool
deriving DecidableEq, Repr

/-- `app.models.Event`.  Dates are abstract instants (`Nat`). -/
structure EventRow where
  id : Nat
  name : String
  description : Option String
  start_date : Nat
  end_date : Nat
  location : String
  is_private : Bool
  created_by_id : Nat
  group_id : Option Nat
  carpool_enabled : Bool
  shopping_list_enabled : Bool
  billetterie_enabled : Bool
  polls_enabled : Bool
deriving DecidableEq, Repr

/-- `app.models.EventOrganizer`. -/
structure EventOrganizerRow where
  id : Nat
  event_id : Nat
  user_id : Nat
deriving DecidableEq, Repr

/-- `app.models.EventParticipant`. -/
structure EventParticipantRow where
  id : Nat
  event_id : Nat
  user_id : Nat
deriving DecidableEq, Repr

/-- `app.models.DiscussionThread`. -/
structure DiscussionThreadRow where
  id : Nat
  title : String
  context : ThreadContext
  group_id : Option Nat
  event_id : Option Nat
  created_by_id : Nat
deriving DecidableEq, Repr

/-- `app.models.Poll`. -/
structure PollRow where
  id : Nat
  event_id : Nat
  title : String
  created_by_id : Nat
  is_active : Bool
deriving DecidableEq, Repr

/-- `app.models.PollQuestion`. -/
structure PollQuestionRow where
  id : Nat
  poll_id : Nat
  question : String
deriving DecidableEq, Repr

/-- `app.models.PollOption`. -/
structure PollOptionRow where
  id : Nat
  question_id : Nat
  label : String
deriving DecidableEq, Repr

/-- `app.models.PollVote`. -/
structure PollVoteRow where
  id : Nat
  question_id : Nat
  option_id : Nat
  voter_id : Nat
deriving DecidableEq, Repr

/-- `app.models.TicketType`.  `price` is a nonnegative numeric value; no
handler does arithmetic on it, so an `Int` stands in for the float column. -/
structure TicketTypeRow where
  id : Nat
  event_id : Nat
  name : String
  price : Int
  quantity : Nat
deriving DecidableEq, Repr

/-- `app.models.Ticket`. -/
structure TicketRow where
  id : Nat
  ticket_type_id : Nat
  purchaser_first_name : String
  purchaser_last_name : String
  purchaser_email : String
  purchaser_address : Option String
deriving DecidableEq, Repr

/-- `app.models.ShoppingListItem`. -/
structure ShoppingListItemRow where
  id : Nat
  event_id : Nat
  owner_id : Nat
  name : String
  quantity : Nat
  arrival_time : Nat
deriving DecidableEq, Repr

/-- `app.models.CarpoolOffer`. -/
structure CarpoolOfferRow where
  id : Nat
  event_id : Nat
  driver_id : Nat
  departure_location : String
  departure_time : Nat
  price : Int
  available_seats : Nat
  max_detour_minutes : Nat
deriving DecidableEq, Repr

/-- The committed relational store: one list per table of `app/models.py`,
plus the id sequence used on flush. -/
structure Store where
  users : List UserRow
  groups : List GroupRow
  group_memberships : List GroupMembershipRow
  events : List EventRow
  event_organizers : List EventOrganizerRow
  event_participants : List EventParticipantRow
  discussion_threads : List DiscussionThreadRow
  polls : List PollRow
  poll_questions : List PollQuestionRow
  poll_options : List PollOptionRow
  poll_votes : List PollVoteRow
  ticket_types : List TicketTypeRow
  tickets : List TicketRow
  shopping_list_items : List ShoppingListItemRow
  carpool_offers : List CarpoolOfferRow
  nextId : Nat
deriving DecidableEq, Repr

/-- The empty database. -/
def Store.empty : Store :=
  ⟨[], [], [], [], [], [], [], [], [], [], [], [], [], [], [], 1⟩

/-- Python truthiness of an `Optional[int]` (`if payload.group_id:`):
`None` and `0` are falsy. -/
def truthyOptNat : Option Nat → Bool
  | none => false
  | some n => n != 0

/- Uniqueness constraints declared in `__table_args__` of each model
(column lists of the `UniqueConstraint`s).  `app.models.Ticket` declares
none. -/
namespace SchemaConstraints

def group_memberships_unique : List (List String) := [["group_id", "user_id"]]

def event_organizers_unique : List (List String) := [["event_id", "user_id"]]

def event_participants_unique : List (List String) := [["event_id", "user_id"]]

def poll_votes_unique : List (List String) := [["question_id", "voter_id"]]

def shopping_list_items_unique : List (List String) := [["event_id", "name"]]

def tickets_unique : List (List String) := []

end SchemaConstraints

/-- `app.schemas.GroupCreate`. -/
structure GroupCreate where
  name : String
  description : Option String
  type : GroupType
  allow_member_posts : Bool
  allow_member_events : Bool
deriving DecidableEq, Repr

/-- `app.schemas.EventCreate` (dates already validated by
`EventBase.validate_dates`; no handler in scope re-reads them). -/
structure EventCreate where
  name : String
  description : Option String
  start_date : Nat
  end_date : Nat
  location : String
  is_private : Bool
  group_id : Option Nat
  carpool_enabled : Bool
  shopping_list_enabled : Bool
  billetterie_enabled : Bool
  polls_enabled : Bool
  organizer_ids : List Nat
deriving DecidableEq, Repr

/-- `app.schemas.EventParticipantCreate`. -/
structure EventParticipantCreate where
  user_id : Nat
deriving DecidableEq, Repr

/-- `app.schemas.DiscussionThreadCreate` (before its model validator runs). -/
structure DiscussionThreadCreate where
  title : String
  context : ThreadContext
  group_id : Option Nat
  event_id : Option Nat
deriving DecidableEq, Repr

/-- `app.schemas.PollOptionCreate`. -/
structure PollOptionCreate where
  label : String
deriving DecidableEq, Repr

/-- `app.schemas.PollQuestionCreate`. -/
structure PollQuestionCreate where
  question : String
  options : List PollOptionCreate
deriving DecidableEq, Repr

/-- `app.schemas.PollCreate`. -/
structure PollCreate where
  title : String
  questions : List PollQuestionCreate
deriving DecidableEq, Repr

/-- `app.schemas.PollVoteItem`. -/
structure PollVoteItem where
  question_id : Nat
  option_id : Nat
deriving DecidableEq, Repr

/-- `app.schemas.TicketTypeCreate`. -/
structure TicketTypeCreate where
  name : String
  price : Int
  quantity : Nat
deriving DecidableEq, Repr

/-- `app.schemas.TicketPurchase`. -/
structure TicketPurchase where
  purchaser_first_name : String
  purchaser_last_name : String
  purchaser_email : String
  purchaser_address : Option String
deriving DecidableEq, Repr

/-- `app.schemas.ShoppingItemCreate`. -/
structure ShoppingItemCreate where
  name : String
  quantity : Nat
  arrival_time : Nat
deriving DecidableEq, Repr

/-- `app.schemas.CarpoolOfferCreate`. -/
structure CarpoolOfferCreate where
  departure_location : String
  departure_time : Nat
  price : Int
  available_seats : Nat
  max_detour_minutes : Nat
deriving DecidableEq, Repr

/-! ## `app/routers/addons.py` -/

namespace Addons

/-- `addons._get_event`: 404 when the event row is absent. -/
def get_event (db : Store) (event_id : Nat) : Except ApiError EventRow :=
  match db.events.find? (fun e => e.id == event_id) with
  | none => .error (.notFound "Event not found")
  | some e => .ok e

/-- `addons._ensure_event_member`: participant row, else organizer row, else
403. -/
def ensure_event_member (db : Store) (event_id user_id : Nat) :
    Except ApiError Unit :=
  match db.event_participants.find?
      (fun p => p.event_id == event_id && p.user_id == user_id) with
  | some _ => .ok ()
  | none =>
    match db.event_organizers.find?
        (fun o => o.event_id == event_id && o.user_id == user_id) with
    | some _ => .ok ()
    | none => .error (.forbidden "Event membership required")

/-- `addons.add_shopping_item`: event lookup, shopping toggle gate, event
membership, per-(event, name) duplicate check, then insert. -/
def add_shopping_item (db : Store) (event_id : Nat)
    (payload : ShoppingItemCreate) (current_user : Nat) :
    Except ApiError Store := do
  let event ← get_event db event_id
  if !event.shopping_list_enabled then
    .error (.badRequest "Shopping list is not enabled for this event")
  else do
  let _ ← ensure_event_member db event_id current_user
  match db.shopping_list_items.find?
      (fun i => i.event_id == event_id && i.name == payload.name) with
  | some _ => .error (.badRequest "Item already registered for this event")
  | none =>
    let item : ShoppingListItemRow :=
      ⟨db.nextId, event_id, current_user, payload.name, payload.quantity,
        payload.arrival_time⟩
    .ok { db with
          shopping_list_items := db.shopping_list_items ++ [item],
          nextId := db.nextId + 1 }

/-- `addons.create_carpool_offer`: event lookup, carpool toggle gate, event
membership, then insert (no uniqueness check). -/
def create_carpool_offer (db : Store) (event_id : Nat)
    (payload : CarpoolOfferCreate) (current_user : Nat) :
    Except ApiError Store := do
  let event ← get_event db event_id
  if !event.carpool_enabled then
    .error (.badRequest "Carpooling is not enabled for this event")
  else do
  let _ ← ensure_event_member db event_id current_user
  let offer : CarpoolOfferRow :=
    ⟨db.nextId, event_id, current_user, payload.departure_location,
      payload.departure_time, payload.price, payload.available_seats,
      payload.max_detour_minutes⟩
  .ok { db with
        carpool_offers := db.carpool_offers ++ [offer],
        nextId := db.nextId + 1 }

end Addons

/-! ## `app/routers/tickets.py` -/

namespace Tickets

/-- `tickets._get_event`: 404 when absent, 400 when the `billetterie_enabled`
toggle is off. -/
def get_event (db : Store) (event_id : Nat) : Except ApiError EventRow :=
  match db.events.find? (fun e => e.id == event_id) with
  | none => .error (.notFound "Event not found")
  | some e =>
    if !e.billetterie_enabled then
      .error (.badRequest "Ticketing not enabled for this event")
    else .ok e

/-- `tickets._ensure_organizer`. -/
def ensure_organizer (db : Store) (event_id user_id : Nat) :
    Except ApiError Unit :=
  match db.event_organizers.find?
      (fun o => o.event_id == event_id && o.user_id == user_id) with
  | some _ => .ok ()
  | none => .error (.forbidden "Organizer privileges required")

/-- `tickets.create_ticket_type`. -/
def create_ticket_type (db : Store) (event_id : Nat)
    (payload : TicketTypeCreate) (current_user : Nat) :
    Except ApiError Store := do
  let _ ← get_event db event_id
  let _ ← ensure_organizer db event_id current_user
  let ticket_type : TicketTypeRow :=
    ⟨db.nextId, event_id, payload.name, payload.price, payload.quantity⟩
  .ok { db with
        ticket_types := db.ticket_types ++ [ticket_type],
        nextId := db.nextId + 1 }

/-- `tickets._get_ticket_type`: 404 when absent, then the event gate of
`tickets._get_event`. -/
def get_ticket_type (db : Store) (ticket_type_id : Nat) :
    Except ApiError TicketTypeRow := do
  match db.ticket_types.find? (fun t => t.id == ticket_type_id) with
  | none => .error (.notFound "Ticket type not found")
  | some ticket_type => do
    let _ ← get_event db ticket_type.event_id
    .ok ticket_type

/-- `tickets.purchase_ticket` (unauthenticated): ticket-type lookup with the
ticketing gate, capacity check by counting sold tickets, per-(type, email)
duplicate check, then insert.  Returns the committed store and the created
ticket row. -/
def purchase_ticket (db : Store) (ticket_type_id : Nat)
    (payload : TicketPurchase) : Except ApiError (Store × TicketRow) := do
  let ticket_type ← get_ticket_type db ticket_type_id
  let sold_count :=
    (db.tickets.filter (fun t => t.ticket_type_id == ticket_type_id)).length
  if sold_count ≥ ticket_type.quantity then
    .error (.badRequest "No more tickets available")
  else
  match db.tickets.find?
      (fun t => t.ticket_type_id == ticket_type_id &&
        t.purchaser_email == payload.purchaser_email) with
  | some _ => .error (.badRequest "This attendee already has a ticket")
  | none =>
    let ticket : TicketRow :=
      ⟨db.nextId, ticket_type_id, payload.purchaser_first_name,
        payload.purchaser_last_name, payload.purchaser_email,
        payload.purchaser_address⟩
    .ok ({ db with
           tickets := db.tickets ++ [ticket],
           nextId := db.nextId + 1 }, ticket)

/-- Two concurrent `purchase_ticket` requests under the naive isolation the
handlers run with: both transactions execute their reads (capacity and
duplicate-email checks) against the same committed store `db` before either
insert commits, then commit in order.  The second committed insert is the
ticket row the second transaction built from its own snapshot (the server id
it receives on commit is taken from the sequence; ids are immaterial to the
counts). -/
def purchase_two_concurrent (db : Store) (ticket_type_id : Nat)
    (p1 p2 : TicketPurchase) : Store :=
  let r1 := purchase_ticket db ticket_type_id p1
  let r2 := purchase_ticket db ticket_type_id p2
  let db1 := match r1 with
    | .ok (s, _) => s
    | .error _ => db
  match r2 with
  | .ok (_, t2) =>
    { db1 with
      tickets := db1.tickets ++ [{ t2 with id := db1.nextId }],
      nextId := db1.nextId + 1 }
  | .error _ => db1

end Tickets

/-- `app.database.get_session`: commit the transaction-local store on success;
roll back — discard the transaction-local store carried by the error — on any
exception, re-raising it. -/
def get_session (r : Except (ApiError × Store) Store) : Except ApiError Store :=
  match r with
  | .ok s => .ok s
  | .error (e, _) => .error e

/-! ## `app/routers/groups.py` -/

namespace Groups

/-- `groups.create_group`: the `group_in.type not in {...}` membership test
(always satisfied, `GroupCreate.type` being the enum), then the group row is
added and flushed, then the creator's admin membership is added and flushed,
and the transaction commits with both rows. -/
def create_group (db : Store) (group_in : GroupCreate) (current_user : Nat) :
    Except ApiError Store :=
  if !([GroupType.public, GroupType.private_, GroupType.secret].contains
      group_in.type) then
    .error (.badRequest "Invalid group type")
  else
    let group : GroupRow :=
      ⟨db.nextId, group_in.name, group_in.description, group_in.type,
        group_in.allow_member_posts, group_in.allow_member_events,
        current_user⟩
    let membership : GroupMembershipRow :=
      ⟨db.nextId + 1, group.id, current_user, true, true⟩
    .ok { db with
          groups := db.groups ++ [group],
          group_memberships := db.group_memberships ++ [membership],
          nextId := db.nextId + 2 }

end Groups

/-! ## `app/routers/events.py` -/

namespace Events

/-- `events._ensure_can_manage_group_event`: membership row with `is_admin`
or `can_create_events`, else 403. -/
def ensure_can_manage_group_event (db : Store) (group_id user_id : Nat) :
    Except ApiError Unit :=
  match db.group_memberships.find?
      (fun m => m.group_id == group_id && m.user_id == user_id) with
  | none =>
    .error (.forbidden "User cannot create or manage events for this group")
  | some membership =>
    if !(membership.is_admin || membership.can_create_events) then
      .error (.forbidden "User cannot create or manage events for this group")
    else .ok ()

/-- `events._ensure_event_organizer`. -/
def ensure_event_organizer (db : Store) (event_id user_id : Nat) :
    Except ApiError Unit :=
  match db.event_organizers.find?
      (fun o => o.event_id == event_id && o.user_id == user_id) with
  | some _ => .ok ()
  | none => .error (.forbidden "Organizer privileges required")

/-- First-occurrence deduplication of a list of ids, modelling a Python
`set` built from the list (set iteration order being unspecified,
first-occurrence order is chosen as its enumeration). -/
def dedupFirst : List Nat → List Nat
  | [] => []
  | x :: xs => x :: (dedupFirst xs).filter (fun y => y != x)

/-- The organizer id set built by `create_event`:
`organizer_ids = set(payload.organizer_ids or []); organizer_ids.add(current_user.id)`. -/
def organizer_id_set (organizer_ids : List Nat) (current_user : Nat) :
    List Nat :=
  let base := dedupFirst organizer_ids
  if base.contains current_user then base else base ++ [current_user]

/-- The per-organizer existence checks of the `create_event` loop.  Each
iteration's `select(User)` runs with autoflush disabled against the users
table (which this transaction never modifies), and the loop's
`session.add(EventOrganizer(...))` rows stay pending until the flush after
the loop; so the transaction-local flushed state at a 404 raise is `db1`
(the event row only), and checking every id before flushing any organizer
row is observably the same loop. -/
def check_organizers_each (db1 : Store) (users : List UserRow) :
    List Nat → Except (ApiError × Store) Unit
  | [] => .ok ()
  | oid :: rest =>
    if (users.find? (fun u => u.id == oid)).isSome then
      check_organizers_each db1 users rest
    else
      .error (.notFound s!"Organizer {oid} not found", db1)

/-- The flush of the pending `EventOrganizer` rows after the loop. -/
def flush_event_organizers (event_id : Nat) :
    Store → List Nat → Store
  | db1, [] => db1
  | db1, oid :: rest =>
    flush_event_organizers event_id
      { db1 with
        event_organizers := db1.event_organizers ++ [⟨db1.nextId, event_id, oid⟩],
        nextId := db1.nextId + 1 }
      rest

/-- `events.create_event`, transaction body: optional group guard (skipped on
falsy `group_id`), event row added and flushed, then the organizer loop. -/
def create_event_txn (db : Store) (payload : EventCreate)
    (current_user : Nat) : Except (ApiError × Store) Store :=
  let guard : Except (ApiError × Store) Unit :=
    if truthyOptNat payload.group_id then
      match ensure_can_manage_group_event db (payload.group_id.getD 0)
          current_user with
      | .ok _ => .ok ()
      | .error e => .error (e, db)
    else .ok ()
  match guard with
  | .error e => .error e
  | .ok _ =>
    let event : EventRow :=
      ⟨db.nextId, payload.name, payload.description, payload.start_date,
        payload.end_date, payload.location, payload.is_private,
        current_user, payload.group_id, payload.carpool_enabled,
        payload.shopping_list_enabled, payload.billetterie_enabled,
        payload.polls_enabled⟩
    let db1 := { db with
                 events := db.events ++ [event],
                 nextId := db.nextId + 1 }
    let ids := organizer_id_set payload.organizer_ids current_user
    match check_organizers_each db1 db1.users ids with
    | .error e => .error e
    | .ok _ => .ok (flush_event_organizers event.id db1 ids)

/-- `events.create_event` as an endpoint: transaction body wrapped by
`get_session` (commit on success, rollback on error). -/
def create_event (db : Store) (payload : EventCreate) (current_user : Nat) :
    Except ApiError Store :=
  get_session (create_event_txn db payload current_user)

/-- `events.add_event_participant`: the organizer guard is skipped exactly
when the target user is the actor; then duplicate-participant check (400),
target-user existence check (404), insert. -/
def add_event_participant (db : Store) (event_id : Nat)
    (payload : EventParticipantCreate) (current_user : Nat) :
    Except ApiError Store := do
  let _ ← if payload.user_id != current_user then
      ensure_event_organizer db event_id current_user
    else .ok ()
  match db.event_participants.find?
      (fun p => p.event_id == event_id && p.user_id == payload.user_id) with
  | some _ => .error (.badRequest "User already participant")
  | none =>
    match db.users.find? (fun u => u.id == payload.user_id) with
    | none => .error (.notFound "User not found")
    | some _ =>
      .ok { db with
            event_participants :=
              db.event_participants ++ [⟨db.nextId, event_id, payload.user_id⟩],
            nextId := db.nextId + 1 }

end Events

/-! ## `app/routers/discussions.py` -/

namespace Discussions

/-- `discussions._ensure_group_member`: the guard only queries the
membership table.  It receives the payload's `Optional[int]`; SQL
`group_id = NULL` matches no row, which `some m.group_id == group_id`
reproduces. -/
def ensure_group_member (db : Store) (group_id : Option Nat)
    (user_id : Nat) : Except ApiError Unit :=
  match db.group_memberships.find?
      (fun m => some m.group_id == group_id && m.user_id == user_id) with
  | some _ => .ok ()
  | none => .error (.forbidden "Access to group discussion denied")

/-- `discussions._ensure_event_participant`: participant row, else organizer
row, else 403 — again querying only the membership tables. -/
def ensure_event_participant (db : Store) (event_id : Option Nat)
    (user_id : Nat) : Except ApiError Unit :=
  match db.event_participants.find?
      (fun p => some p.event_id == event_id && p.user_id == user_id) with
  | some _ => .ok ()
  | none =>
    match db.event_organizers.find?
        (fun o => some o.event_id == event_id && o.user_id == user_id) with
    | some _ => .ok ()
    | none => .error (.forbidden "Access to event discussion denied")

/-- `DiscussionThreadCreate.validate_context` (pydantic, runs before the
handler): requires the id matching the declared context to be truthily
present; it says nothing about the other id. -/
def validate_context (data : DiscussionThreadCreate) :
    Except ApiError DiscussionThreadCreate :=
  if data.context == ThreadContext.group && !truthyOptNat data.group_id then
    .error (.validationError "group_id is required when context = group")
  else if data.context == ThreadContext.event && !truthyOptNat data.event_id
  then
    .error (.validationError "event_id is required when context = event")
  else .ok data

/-- `discussions.create_thread` (handler body, after pydantic validation):
context-directed guard, then the thread row — carrying both payload ids
verbatim — is inserted. -/
def create_thread (db : Store) (payload : DiscussionThreadCreate)
    (current_user : Nat) : Except ApiError Store := do
  let _ ← match payload.context with
    | ThreadContext.group =>
      ensure_group_member db payload.group_id current_user
    | ThreadContext.event =>
      ensure_event_participant db payload.event_id current_user
  let thread : DiscussionThreadRow :=
    ⟨db.nextId, payload.title, payload.context, payload.group_id,
      payload.event_id, current_user⟩
  .ok { db with
        discussion_threads := db.discussion_threads ++ [thread],
        nextId := db.nextId + 1 }

/-- The full `POST /discussions` path: pydantic validation of the request
body, then the handler. -/
def create_thread_endpoint (db : Store) (payload : DiscussionThreadCreate)
    (current_user : Nat) : Except ApiError Store := do
  let validated ← validate_context payload
  create_thread db validated current_user

end Discussions

/-! ## `app/routers/polls.py` -/

namespace Polls

/-- `polls._ensure_event_organizer`. -/
def ensure_event_organizer (db : Store) (event_id user_id : Nat) :
    Except ApiError Unit :=
  match db.event_organizers.find?
      (fun o => o.event_id == event_id && o.user_id == user_id) with
  | some _ => .ok ()
  | none => .error (.forbidden "Organizer privileges required")

/-- `polls._ensure_event_participant`: participant row, else fall through to
the organizer guard (whose 403 message is the one surfaced). -/
def ensure_event_participant (db : Store) (event_id user_id : Nat) :
    Except ApiError Unit :=
  match db.event_participants.find?
      (fun p => p.event_id == event_id && p.user_id == user_id) with
  | some _ => .ok ()
  | none => ensure_event_organizer db event_id user_id

/-- `polls._get_poll_with_questions`: 404 when the poll row is absent (the
eager-loaded relationships are the `poll_questions_of`/`question_options_of`
filters below). -/
def get_poll_with_questions (db : Store) (poll_id : Nat) :
    Except ApiError PollRow :=
  match db.polls.find? (fun p => p.id == poll_id) with
  | none => .error (.notFound "Poll not found")
  | some poll => .ok poll

/-- ORM relationship `poll.questions`. -/
def poll_questions_of (db : Store) (poll_id : Nat) : List PollQuestionRow :=
  db.poll_questions.filter (fun q => q.poll_id == poll_id)

/-- ORM relationship `question.options`. -/
def question_options_of (db : Store) (question_id : Nat) :
    List PollOptionRow :=
  db.poll_options.filter (fun o => o.question_id == question_id)

/-- `len(option.votes)` in `polls._serialize_poll`: the tally of an option,
computed on read from the vote rows referencing it. -/
def option_tally (votes : List PollVoteRow) (option_id : Nat) : Nat :=
  (votes.filter (fun v => v.option_id == option_id)).length

/-- The question loop of `create_poll`: per question, the `< 2` options
check (raising with the transaction-local store as flushed so far — the poll
row and the previously flushed question rows; the pending option adds are
unflushed), then the question row is added and flushed and its option rows
join the pending list for the flush after the loop. -/
def create_poll_questions_loop (pollId : Nat) :
    Store → List (Nat × String) → List PollQuestionCreate →
    Except (ApiError × Store) (Store × List (Nat × String))
  | db1, pending, [] => .ok (db1, pending)
  | db1, pending, q :: rest =>
    if q.options.length < 2 then
      .error (.badRequest "Each question needs at least two options", db1)
    else
      let question : PollQuestionRow := ⟨db1.nextId, pollId, q.question⟩
      let db2 := { db1 with
                   poll_questions := db1.poll_questions ++ [question],
                   nextId := db1.nextId + 1 }
      create_poll_questions_loop pollId db2
        (pending ++ q.options.map (fun o => (question.id, o.label))) rest

/-- The final flush of the pending `PollOption` rows. -/
def flush_poll_options : Store → List (Nat × String) → Store
  | db, [] => db
  | db, (qid, label) :: rest =>
    flush_poll_options
      { db with
        poll_options := db.poll_options ++ [⟨db.nextId, qid, label⟩],
        nextId := db.nextId + 1 }
      rest

/-- `polls.create_poll`, transaction body: organizer guard, non-empty
questions check, poll row added and flushed, then the question loop.  Note
the handler reads no event row: the `polls_enabled` toggle is never
consulted. -/
def create_poll_txn (db : Store) (event_id : Nat) (payload : PollCreate)
    (current_user : Nat) : Except (ApiError × Store) Store :=
  match ensure_event_organizer db event_id current_user with
  | .error e => .error (e, db)
  | .ok _ =>
    if payload.questions.isEmpty then
      .error (.badRequest "Poll must contain questions", db)
    else
      let poll : PollRow :=
        ⟨db.nextId, event_id, payload.title, current_user, true⟩
      let db1 := { db with
                   polls := db.polls ++ [poll],
                   nextId := db.nextId + 1 }
      match create_poll_questions_loop poll.id db1 [] payload.questions with
      | .error e => .error e
      | .ok (db2, pending) => .ok (flush_poll_options db2 pending)

/-- `polls.create_poll` as an endpoint: transaction body wrapped by
`get_session`. -/
def create_poll (db : Store) (event_id : Nat) (payload : PollCreate)
    (current_user : Nat) : Except ApiError Store :=
  get_session (create_poll_txn db event_id payload current_user)

/-- The (question, voter) key of the existing-vote lookup
(`PollVote.question_id == vote.question_id, PollVote.voter_id == current_user.id`). -/
def voteKey (question_id voter_id : Nat) (v : PollVoteRow) : Bool :=
  v.question_id == question_id && v.voter_id == voter_id

/-- The in-place mutation of the identity-mapped existing vote
(`existing.option_id = vote.option_id`), applied to the rows carrying the
(question, voter) key; under the schema's uniqueness constraint on that key
at most one row matches. -/
def set_vote_option (question_id voter_id option_id : Nat)
    (v : PollVoteRow) : PollVoteRow :=
  if voteKey question_id voter_id v then { v with option_id := option_id }
  else v

/-- The vote loop of `submit_poll_votes`.  The session runs with autoflush
disabled, so vote rows inserted by this call stay pending (invisible to the
existing-vote query) until the flush after the loop, while an update of an
existing vote mutates the identity-mapped loaded row in place (visible to
later iterations).  `view` is the query-visible vote table, `pending` the
unflushed inserts. -/
def submit_votes_loop (db : Store) (poll_id voter : Nat) :
    List PollVoteRow → List (Nat × Nat) → List PollVoteItem →
    Except ApiError (List PollVoteRow × List (Nat × Nat))
  | view, pending, [] => .ok (view, pending)
  | view, pending, vote :: rest =>
    match (poll_questions_of db poll_id).find?
        (fun q => q.id == vote.question_id) with
    | none =>
      .error (.badRequest s!"Question {vote.question_id} not part of this poll")
    | some question =>
      match (question_options_of db question.id).find?
          (fun o => o.id == vote.option_id) with
      | none =>
        .error (.badRequest
          s!"Option {vote.option_id} invalid for question {vote.question_id}")
      | some _ =>
        match view.find? (voteKey vote.question_id voter) with
        | some _ =>
          submit_votes_loop db poll_id voter
            (view.map (set_vote_option vote.question_id voter vote.option_id))
            pending rest
        | none =>
          submit_votes_loop db poll_id voter view
            (pending ++ [(vote.question_id, vote.option_id)]) rest

/-- The flush after the vote loop: pending `PollVote` inserts receive ids. -/
def flush_pending_votes (voter : Nat) : Store → List (Nat × Nat) → Store
  | db, [] => db
  | db, (qid, oid) :: rest =>
    flush_pending_votes voter
      { db with
        poll_votes := db.poll_votes ++ [⟨db.nextId, qid, oid, voter⟩],
        nextId := db.nextId + 1 }
      rest

/-- `polls.submit_poll_votes`: poll lookup (404), active check (400),
participant-or-organizer guard, then the vote loop and the flush. -/
def submit_poll_votes (db : Store) (poll_id : Nat)
    (votes : List PollVoteItem) (current_user : Nat) :
    Except ApiError Store := do
  let poll ← get_poll_with_questions db poll_id
  if !poll.is_active then .error (.badRequest "Poll is closed")
  else do
  let _ ← ensure_event_participant db poll.event_id current_user
  let (view, pending) ←
    submit_votes_loop db poll_id current_user db.poll_votes [] votes
  .ok (flush_pending_votes current_user { db with poll_votes := view } pending)

end Polls

/-! ## Concrete fixtures -/

/-- An active user, id 1. -/
def exUser1 : UserRow := ⟨1, "ann@x.com", "Ann", "h", true⟩

/-- An event (id 1) with all four feature toggles off, created by user 1. -/
def exEventOff : EventRow :=
  ⟨1, "party", none, 0, 1, "loc", false, 1, none, false, false, false, false⟩

/-- Store for the toggle-gating scenario: user 1 is both organizer and
participant of event 1, whose four feature toggles are all false. -/
def exDbC1 : Store :=
  { Store.empty with
    users := [exUser1],
    events := [exEventOff],
    event_organizers := [⟨1, 1, 1⟩],
    event_participants := [⟨2, 1, 1⟩],
    nextId := 3 }

/-- A valid two-option poll payload. -/
def exPollGood : PollCreate := ⟨"P", [⟨"Q?", [⟨"o1"⟩, ⟨"o2"⟩]⟩]⟩

/-- An event (id 1) with ticketing enabled, created by user 1. -/
def exEventTick : EventRow :=
  ⟨1, "gig", none, 0, 1, "loc", false, 1, none, false, false, true, true⟩

/-- Ticket type 1 on event 1 with `quantity = 1`. -/
def exTT : TicketTypeRow := ⟨1, 1, "std", 0, 1⟩

/-- Store for the capacity scenario: ticketing-enabled event 1 and its
quantity-1 ticket type, no tickets sold. -/
def exDbC2 : Store :=
  { Store.empty with
    users := [exUser1],
    events := [exEventTick],
    ticket_types := [exTT],
    nextId := 10 }

def exPurchase1 : TicketPurchase := ⟨"Ann", "Ab", "ann@x.com", none⟩

def exPurchase2 : TicketPurchase := ⟨"Cat", "Cd", "cat@x.com", none⟩

/-- The ticket row committed by the first purchase in `exDbC2`. -/
def exTicket1 : TicketRow := ⟨10, 1, "Ann", "Ab", "ann@x.com", none⟩

/-- The store after the first successful purchase in `exDbC2`. -/
def exDbC2sold : Store := { exDbC2 with tickets := [exTicket1], nextId := 11 }

/-- Store for the vote-replacement scenario: user 1 participates in event 1,
which carries the active poll 1 whose question 1 offers options 1 and 2; no
votes yet. -/
def exDbC3 : Store :=
  { Store.empty with
    users := [exUser1],
    events := [exEventTick],
    event_participants := [⟨1, 1, 1⟩],
    polls := [⟨1, 1, "P", 1, true⟩],
    poll_questions := [⟨1, 1, "Q?"⟩],
    poll_options := [⟨1, 1, "A"⟩, ⟨2, 1, "B"⟩],
    nextId := 10 }

/-- `exDbC3` after user 1 votes option 1 on question 1. -/
def exDbC3voted : Store :=
  { exDbC3 with poll_votes := [⟨10, 1, 1, 1⟩], nextId := 11 }

/-- `exDbC3voted` after user 1 re-votes option 2 on question 1: the same
row, its option replaced. -/
def exDbC3revoted : Store :=
  { exDbC3 with poll_votes := [⟨10, 1, 2, 1⟩], nextId := 11 }

/-- A second active user, id 2. -/
def exUser2 : UserRow := ⟨2, "bob@x.com", "Bob", "h", true⟩

/-- Store for the participant-add scenario: users 1 and 2, event 1, user 1
its sole organizer; user 2 holds no role on it. -/
def exDbC4 : Store :=
  { Store.empty with
    users := [exUser1, exUser2],
    events := [exEventTick],
    event_organizers := [⟨1, 1, 1⟩],
    nextId := 5 }

/-- A group, id 1, created by user 1. -/
def exGroup1 : GroupRow := ⟨1, "g", none, GroupType.public, true, true, 1⟩

/-- Store for the thread scenarios: group 1 with user 1 as member; no event
of id 7 (or any event) exists. -/
def exDbC6 : Store :=
  { Store.empty with
    users := [exUser1],
    groups := [exGroup1],
    group_memberships := [⟨1, 1, 1, true, true⟩],
    nextId := 5 }

/-- A thread payload declaring context `group` while also carrying
`event_id = 7`. -/
def exThreadBoth : DiscussionThreadCreate :=
  ⟨"t", ThreadContext.group, some 1, some 7⟩

/-- Store for the poll-creation scenarios: event 1 with user 1 as its
organizer. -/
def exDbC7 : Store :=
  { Store.empty with
    users := [exUser1],
    events := [exEventTick],
    event_organizers := [⟨1, 1, 1⟩],
    nextId := 3 }

/-- A poll payload whose single question has only one option. -/
def exPollBad : PollCreate := ⟨"P", [⟨"Q?", [⟨"only"⟩]⟩]⟩

/-- The transaction-local store at the moment `create_poll` raises on
`exPollBad`: the poll row is already flushed. -/
def exDbC7partial : Store :=
  { exDbC7 with polls := [⟨3, 1, "P", 1, true⟩], nextId := 4 }

/-! ## Helper lemmas -/

/-- If some question of the list has fewer than two options, the
`create_poll` question loop fails, whatever the transaction state. -/
theorem create_poll_questions_loop_error (pollId : Nat) :
    ∀ (qs : List PollQuestionCreate) (db1 : Store)
      (pending : List (Nat × String)),
      (∃ q ∈ qs, q.options.length < 2) →
      ∃ e s, Polls.create_poll_questions_loop pollId db1 pending qs =
        .error (e, s) := by
  intro qs
  induction qs with
  | nil => intro db1 pending h; simp at h
  | cons q rest ih =>
    intro db1 pending h
    by_cases hq : q.options.length < 2
    · exact ⟨.badRequest "Each question needs at least two options", db1,
        by simp [Polls.create_poll_questions_loop, hq]⟩
    · have hrest : ∃ q ∈ rest, q.options.length < 2 := by
        obtain ⟨q', hmem, hlt⟩ := h
        rcases List.mem_cons.mp hmem with h | h
        · exact absurd hlt (h ▸ hq)
        · exact ⟨q', h, hlt⟩
      obtain ⟨e, s, hs⟩ := ih
        { db1 with
          poll_questions := db1.poll_questions ++ [⟨db1.nextId, pollId, q.question⟩],
          nextId := db1.nextId + 1 }
        (pending ++ q.options.map (fun o => (db1.nextId, o.label))) hrest
      refine ⟨e, s, ?_⟩
      simp only [Polls.create_poll_questions_loop, if_neg hq]
      exact hs

/-- If some id of the list has no user row, the `create_event` organizer
check loop fails. -/
theorem check_organizers_each_error (db1 : Store) (users : List UserRow) :
    ∀ ids : List Nat,
      (∃ oid ∈ ids, users.find? (fun u => u.id == oid) = none) →
      ∃ e s, Events.check_organizers_each db1 users ids = .error (e, s) := by
  intro ids
  induction ids with
  | nil => intro h; simp at h
  | cons x rest ih =>
    intro h
    by_cases hx : (users.find? (fun u => u.id == x)).isSome
    · have hrest : ∃ oid ∈ rest, users.find? (fun u => u.id == oid) = none := by
        obtain ⟨o, hmem, hnone⟩ := h
        rcases List.mem_cons.mp hmem with h | h
        · subst h; rw [hnone] at hx; simp at hx
        · exact ⟨o, h, hnone⟩
      obtain ⟨e, s, hs⟩ := ih hrest
      refine ⟨e, s, ?_⟩
      simp only [Events.check_organizers_each, if_pos hx]
      exact hs
    · exact ⟨.notFound s!"Organizer {x} not found", db1,
        by simp [Events.check_organizers_each, hx]⟩

/-- `dedupFirst` preserves membership. -/
theorem mem_dedupFirst {a : Nat} :
    ∀ {l : List Nat}, a ∈ l → a ∈ Events.dedupFirst l := by
  intro l h
  induction l with
  | nil => simp at h
  | cons x xs ih =>
    rcases List.mem_cons.mp h with h | h
    · subst h; simp [Events.dedupFirst]
    · by_cases hax : a = x
      · subst hax; simp [Events.dedupFirst]
      · have hmem := ih h
        simp only [Events.dedupFirst, List.mem_cons, List.mem_filter]
        exact Or.inr ⟨hmem, by simp [hax]⟩

/-- Every id of the request's organizer list belongs to the organizer id
set `create_event` iterates. -/
theorem mem_organizer_id_set_of_mem {oid : Nat} {l : List Nat}
    (actor : Nat) (h : oid ∈ l) :
    oid ∈ Events.organizer_id_set l actor := by
  have hbase := mem_dedupFirst h
  simp only [Events.organizer_id_set]
  split
  · exact hbase
  · exact List.mem_append_left _ hbase

/-- The actor always belongs to the organizer id set. -/
theorem actor_mem_organizer_id_set (l : List Nat) (actor : Nat) :
    actor ∈ Events.organizer_id_set l actor := by
  simp only [Events.organizer_id_set]
  split
  · next hc => simpa using hc
  · exact List.mem_append_right _ (List.mem_singleton.mpr rfl)

/-- `flush_event_organizers` only appends: existing organizer rows
survive. -/
theorem flush_event_organizers_mono (event_id : Nat) :
    ∀ (ids : List Nat) (db1 : Store) (r : EventOrganizerRow),
      r ∈ db1.event_organizers →
      r ∈ (Events.flush_event_organizers event_id db1 ids).event_organizers := by
  intro ids
  induction ids with
  | nil => intro db1 r h; simpa [Events.flush_event_organizers] using h
  | cons x rest ih =>
    intro db1 r h
    exact ih _ r (List.mem_append_left _ h)

/-- Each id of the list receives an organizer row in the flush. -/
theorem mem_flush_event_organizers (event_id : Nat) :
    ∀ (ids : List Nat) (db1 : Store) (oid : Nat), oid ∈ ids →
      ∃ r ∈ (Events.flush_event_organizers event_id db1 ids).event_organizers,
        r.event_id = event_id ∧ r.user_id = oid := by
  intro ids
  induction ids with
  | nil => intro db1 oid h; simp at h
  | cons x rest ih =>
    intro db1 oid h
    rcases List.mem_cons.mp h with h | h
    · subst h
      refine ⟨⟨db1.nextId, event_id, oid⟩, ?_, rfl, rfl⟩
      exact flush_event_organizers_mono event_id rest _ _
        (List.mem_append_right _ (List.mem_singleton.mpr rfl))
    · exact ih _ oid h

/-- `set_vote_option` never changes a row's (question, voter) key. -/
theorem voteKey_set_vote_option (a b qid voter opt : Nat) (v : PollVoteRow) :
    Polls.voteKey a b (Polls.set_vote_option qid voter opt v) =
      Polls.voteKey a b v := by
  unfold Polls.set_vote_option
  split <;> rfl

/-- Tally over a cons of vote rows. -/
theorem option_tally_cons (x : PollVoteRow) (l : List PollVoteRow) (b : Nat) :
    Polls.option_tally (x :: l) b =
      (if x.option_id == b then 1 else 0) + Polls.option_tally l b := by
  by_cases hx : x.option_id == b <;>
    simp [Polls.option_tally, List.filter_cons, hx, Nat.add_comm]

/-- Rows failing the key are untouched by the update map. -/
theorem map_set_vote_option_of_no_key (qid voter opt : Nat)
    (l : List PollVoteRow) (h : ∀ v ∈ l, ¬ Polls.voteKey qid voter v = true) :
    l.map (Polls.set_vote_option qid voter opt) = l := by
  have hcongr : ∀ v ∈ l, Polls.set_vote_option qid voter opt v = id v := by
    intro v hv
    simp [Polls.set_vote_option, h v hv]
  rw [List.map_congr_left hcongr, List.map_id]

/-- Updating the unique key row rewrites exactly that row in the key
filter. -/
theorem filter_voteKey_map_set (qid voter opt : Nat) :
    ∀ (l : List PollVoteRow) (r : PollVoteRow),
      l.filter (Polls.voteKey qid voter) = [r] →
      (l.map (Polls.set_vote_option qid voter opt)).filter
          (Polls.voteKey qid voter) = [{ r with option_id := opt }] := by
  intro l
  induction l with
  | nil => intro r h; simp at h
  | cons x xs ih =>
    intro r h
    by_cases hx : Polls.voteKey qid voter x
    · rw [List.filter_cons_of_pos hx] at h
      injection h with h1 h2
      subst h1
      have hxs : ∀ v ∈ xs, ¬ Polls.voteKey qid voter v = true :=
        List.filter_eq_nil_iff.mp h2
      rw [List.map_cons, map_set_vote_option_of_no_key qid voter opt xs hxs,
        List.filter_cons_of_pos (by rw [voteKey_set_vote_option]; exact hx), h2]
      simp [Polls.set_vote_option, hx]
    · rw [List.filter_cons_of_neg (by simpa using hx)] at h
      rw [List.map_cons,
        List.filter_cons_of_neg (by rw [voteKey_set_vote_option]; simpa using hx)]
      exact ih r h

/-- Effect of replacing the unique key row's option on the read-time
tallies: the new option gains one vote, the old one loses one. -/
theorem option_tally_map_set (qid voter optB optA : Nat) (hne : optA ≠ optB) :
    ∀ (l : List PollVoteRow) (r : PollVoteRow),
      l.filter (Polls.voteKey qid voter) = [r] → r.option_id = optA →
      Polls.option_tally (l.map (Polls.set_vote_option qid voter optB)) optB
        = Polls.option_tally l optB + 1 ∧
      Polls.option_tally (l.map (Polls.set_vote_option qid voter optB)) optA + 1
        = Polls.option_tally l optA := by
  intro l
  induction l with
  | nil => intro r h _; simp at h
  | cons x xs ih =>
    intro r h ha
    by_cases hx : Polls.voteKey qid voter x
    · rw [List.filter_cons_of_pos hx] at h
      injection h with h1 h2
      subst h1
      have hxs : ∀ v ∈ xs, ¬ Polls.voteKey qid voter v = true :=
        List.filter_eq_nil_iff.mp h2
      have hsetx : Polls.set_vote_option qid voter optB x =
          { x with option_id := optB } := by
        simp [Polls.set_vote_option, hx]
      rw [List.map_cons, map_set_vote_option_of_no_key qid voter optB xs hxs,
        hsetx]
      constructor
      · rw [option_tally_cons, option_tally_cons]
        simp [ha, hne]
        omega
      · rw [option_tally_cons, option_tally_cons]
        simp [ha, Ne.symm hne]
        omega
    · rw [List.filter_cons_of_neg (by simpa using hx)] at h
      have hsetx : Polls.set_vote_option qid voter optB x = x := by
        simp [Polls.set_vote_option, hx]
      obtain ⟨ihB, ihA⟩ := ih r h ha
      rw [List.map_cons, hsetx]
      constructor
      · rw [option_tally_cons, option_tally_cons, ihB]
        omega
      · rw [option_tally_cons, option_tally_cons, ihA.symm]
        omega

/-- A singleton key filter pins down the lookup's result. -/
theorem find?_of_filter_singleton (p : PollVoteRow → Bool) :
    ∀ (l : List PollVoteRow) (r : PollVoteRow), l.filter p = [r] →
      l.find? p = some r := by
  intro l
  induction l with
  | nil => intro r h; simp at h
  | cons x xs ih =>
    intro r h
    by_cases hx : p x
    · rw [List.filter_cons_of_pos hx] at h
      injection h with h1 h2
      subst h1
      exact List.find?_cons_of_pos _ hx
    · rw [List.filter_cons_of_neg (by simpa using hx)] at h
      rw [List.find?_cons_of_neg _ (by simpa using hx)]
      exact ih r h

/-- Under the at-most-one invariant the lookup's result is the whole key
filter. -/
theorem filter_singleton_of_find? (p : PollVoteRow → Bool) :
    ∀ (l : List PollVoteRow) (r : PollVoteRow), l.find? p = some r →
      (l.filter p).length ≤ 1 → l.filter p = [r] := by
  intro l
  induction l with
  | nil => intro r h _; simp at h
  | cons x xs ih =>
    intro r h hlen
    by_cases hx : p x
    · rw [List.find?_cons_of_pos _ hx] at h
      injection h with h1
      subst h1
      rw [List.filter_cons_of_pos hx] at hlen ⊢
      have hnil : xs.filter p = [] := by
        cases hfx : xs.filter p with
        | nil => rfl
        | cons y ys => rw [hfx] at hlen; simp at hlen
      rw [hnil]
    · rw [List.find?_cons_of_neg _ (by simpa using hx)] at h
      rw [List.filter_cons_of_neg (by simpa using hx)] at hlen ⊢
      exact ih r h hlen

/-- A failed lookup empties the key filter. -/
theorem filter_nil_of_find?_none (p : PollVoteRow → Bool)
    (l : List PollVoteRow) (h : l.find? p = none) : l.filter p = [] :=
  List.filter_eq_nil_iff.mpr (by simpa using List.find?_eq_none.mp h)

/-- Shape of a successful single-entry `submit_poll_votes`: either the voter
already had a vote on the question and the committed vote table is the
update map over the existing rows, or no such vote existed and the new row
is appended with the next sequence id. -/
theorem submit_single_ok_shape (db : Store) (poll_id voter qid opt : Nat)
    (db1 : Store)
    (h : Polls.submit_poll_votes db poll_id [⟨qid, opt⟩] voter = .ok db1) :
    ((∃ r, db.poll_votes.find? (Polls.voteKey qid voter) = some r) ∧
      db1.poll_votes = db.poll_votes.map (Polls.set_vote_option qid voter opt)) ∨
    (db.poll_votes.find? (Polls.voteKey qid voter) = none ∧
      db1.poll_votes = db.poll_votes ++ [⟨db.nextId, qid, opt, voter⟩]) := by
  cases hfind : db.polls.find? (fun p => p.id == poll_id) with
  | none =>
    simp [Polls.submit_poll_votes, Polls.get_poll_with_questions, hfind,
      bind, Except.bind] at h
  | some poll =>
    cases hact : poll.is_active with
    | false =>
      simp [Polls.submit_poll_votes, Polls.get_poll_with_questions, hfind,
        hact, bind, Except.bind] at h
    | true =>
      cases hpart : Polls.ensure_event_participant db poll.event_id voter with
      | error e =>
        simp [Polls.submit_poll_votes, Polls.get_poll_with_questions, hfind,
          hact, hpart, bind, Except.bind] at h
      | ok u =>
        cases hq : (Polls.poll_questions_of db poll_id).find?
            (fun q => q.id == qid) with
        | none =>
          simp [Polls.submit_poll_votes, Polls.get_poll_with_questions,
            Polls.submit_votes_loop, hfind, hact, hpart, hq, bind,
            Except.bind] at h
        | some question =>
          cases ho : (Polls.question_options_of db question.id).find?
              (fun o => o.id == opt) with
          | none =>
            simp [Polls.submit_poll_votes, Polls.get_poll_with_questions,
              Polls.submit_votes_loop, hfind, hact, hpart, hq, ho, bind,
              Except.bind] at h
          | some option =>
            cases he : db.poll_votes.find? (Polls.voteKey qid voter) with
            | some r =>
              left
              simp [Polls.submit_poll_votes, Polls.get_poll_with_questions,
                Polls.submit_votes_loop, Polls.flush_pending_votes, hfind,
                hact, hpart, hq, ho, he, bind, Except.bind] at h
              refine ⟨⟨r, rfl⟩, ?_⟩
              rw [← h]
            | none =>
              right
              simp [Polls.submit_poll_votes, Polls.get_poll_with_questions,
                Polls.submit_votes_loop, Polls.flush_pending_votes, hfind,
                hact, hpart, hq, ho, he, bind, Except.bind] at h
              refine ⟨rfl, ?_⟩
              rw [← h]

/-! ## Claim theorems -/

/-- C1: creating a shopping item, carpool offer or ticket type on an event
whose corresponding toggle is false fails `BadRequest` (400) even for an
actor who is organizer and participant (user 1 in `exDbC1`), the error
committing nothing — but poll creation never consults `polls_enabled`: on
the same toggles-all-off event it succeeds and commits the poll.  The claim
is right about the first three families and the code wrong about polls. -/
theorem c1_toggle_gating_polls_unchecked :
    Addons.add_shopping_item exDbC1 1 ⟨"chips", 1, 0⟩ 1 =
      .error (.badRequest "Shopping list is not enabled for this event") ∧
    Addons.create_carpool_offer exDbC1 1 ⟨"here", 0, 0, 2, 5⟩ 1 =
      .error (.badRequest "Carpooling is not enabled for this event") ∧
    Tickets.create_ticket_type exDbC1 1 ⟨"std", 0, 10⟩ 1 =
      .error (.badRequest "Ticketing not enabled for this event") ∧
    exEventOff.polls_enabled = false ∧
    (Polls.create_poll exDbC1 1 exPollGood 1).isOk = true := by
  refine ⟨rfl, rfl, rfl, rfl, rfl⟩

/-- C2: in `exDbC2` (ticket type 1, quantity 1, nothing sold) a first
purchase commits `exTicket1`; a second, serialized purchase then fails
`BadRequest` ("No more tickets available") and inserts nothing.  But when
the second purchase runs concurrently with the first — both capacity checks
reading the committed store before either insert commits, which nothing in
the handler prevents — both commit, and the committed count for the type
reaches 2 > quantity = 1, violating the claimed invariant. -/
theorem c2_capacity_check_and_race :
    exTT.quantity = 1 ∧
    Tickets.purchase_ticket exDbC2 1 exPurchase1 = .ok (exDbC2sold, exTicket1) ∧
    Tickets.purchase_ticket exDbC2sold 1 exPurchase2 =
      .error (.badRequest "No more tickets available") ∧
    ((Tickets.purchase_two_concurrent exDbC2 1 exPurchase1 exPurchase2).tickets.filter
      (fun t => t.ticket_type_id == 1)).length = 2 := by
  refine ⟨rfl, rfl, rfl, rfl⟩

/-- C4: in `add_event_participant` the organizer guard runs exactly when the
target user differs from the actor.  (a) For a different target, an actor
with no organizer row gets `Forbidden` (403) and nothing is inserted;
(b) for a self-add the guard is skipped entirely: with no duplicate row and
an existing user the insert commits, with no assumption on the actor's
roles. -/
theorem c4_add_participant_dual_path
    (db : Store) (event_id : Nat) (payload : EventParticipantCreate)
    (current_user : Nat) :
    (payload.user_id ≠ current_user →
      db.event_organizers.find?
        (fun o => o.event_id == event_id && o.user_id == current_user) = none →
      Events.add_event_participant db event_id payload current_user =
        .error (.forbidden "Organizer privileges required")) ∧
    (payload.user_id = current_user →
      db.event_participants.find?
        (fun p => p.event_id == event_id && p.user_id == payload.user_id) = none →
      (db.users.find? (fun u => u.id == payload.user_id)).isSome = true →
      Events.add_event_participant db event_id payload current_user =
        .ok { db with
              event_participants := db.event_participants ++
                [⟨db.nextId, event_id, payload.user_id⟩],
              nextId := db.nextId + 1 }) := by
  constructor
  · intro hne hfind
    simp only [Events.add_event_participant, Events.ensure_event_organizer,
      hfind, bne_iff_ne, ne_eq, hne, not_false_eq_true, if_true, bind,
      Except.bind]
  · intro heq hdup hex
    obtain ⟨u, hu⟩ := Option.isSome_iff_exists.mp hex
    simp only [heq] at hdup hu
    simp only [Events.add_event_participant, Events.ensure_event_organizer,
      heq, bne_self_eq_false, Bool.false_eq_true, if_false, hdup, hu, bind,
      Except.bind]

/-- C4 witness: in `exDbC4`, non-organizer user 2 adding user 1 fails
`Forbidden` while user 2 adding themself succeeds. -/
theorem c4_add_participant_dual_path_witness :
    Events.add_event_participant exDbC4 1 ⟨1⟩ 2 =
      .error (.forbidden "Organizer privileges required") ∧
    Events.add_event_participant exDbC4 1 ⟨2⟩ 2 =
      .ok { exDbC4 with
            event_participants := [⟨5, 1, 2⟩],
            nextId := 6 } :=
  ⟨(c4_add_participant_dual_path exDbC4 1 ⟨1⟩ 2).1 (by decide) rfl,
   (c4_add_participant_dual_path exDbC4 1 ⟨2⟩ 2).2 rfl rfl rfl⟩

/-- C5: `create_group` commits the group row and the creator's admin
membership together: the successful result is exactly the input store plus
both rows (the type check over the enum never fails, and an error would
commit nothing), so the invariant "every group has its creator as admin
member" is preserved by the operation. -/
theorem c5_create_group_atomic
    (db : Store) (group_in : GroupCreate) (current_user : Nat) :
    (Groups.create_group db group_in current_user = .ok
      { db with
        groups := db.groups ++ [⟨db.nextId, group_in.name,
          group_in.description, group_in.type, group_in.allow_member_posts,
          group_in.allow_member_events, current_user⟩],
        group_memberships := db.group_memberships ++
          [⟨db.nextId + 1, db.nextId, current_user, true, true⟩],
        nextId := db.nextId + 2 }) ∧
    (∀ db', Groups.create_group db group_in current_user = .ok db' →
      (∀ g ∈ db.groups, ∃ m ∈ db.group_memberships,
        m.group_id = g.id ∧ m.user_id = g.created_by_id ∧ m.is_admin) →
      ∀ g ∈ db'.groups, ∃ m ∈ db'.group_memberships,
        m.group_id = g.id ∧ m.user_id = g.created_by_id ∧ m.is_admin) := by
  have hok : Groups.create_group db group_in current_user = .ok
      { db with
        groups := db.groups ++ [⟨db.nextId, group_in.name,
          group_in.description, group_in.type, group_in.allow_member_posts,
          group_in.allow_member_events, current_user⟩],
        group_memberships := db.group_memberships ++
          [⟨db.nextId + 1, db.nextId, current_user, true, true⟩],
        nextId := db.nextId + 2 } := by
    obtain ⟨n, d, t, mp, me⟩ := group_in
    cases t <;> rfl
  refine ⟨hok, ?_⟩
  intro db' h hinv g hg
  rw [hok] at h
  injection h with h
  subst h
  simp only [List.mem_append, List.mem_singleton] at hg
  rcases hg with hg | hg
  · obtain ⟨m, hm, hmg⟩ := hinv g hg
    exact ⟨m, List.mem_append_left _ hm, hmg⟩
  · subst hg
    exact ⟨⟨db.nextId + 1, db.nextId, current_user, true, true⟩,
      List.mem_append_right _ (List.mem_singleton.mpr rfl), rfl, rfl, rfl⟩

/-- C5 witness: creating a group in the empty store commits exactly the
group row and its creator's admin membership, and the resulting store
satisfies the creator-membership invariant at the new group. -/
theorem c5_create_group_atomic_witness :
    Groups.create_group Store.empty ⟨"g", none, GroupType.public, true, true⟩ 1 =
      .ok { Store.empty with
            groups := [⟨1, "g", none, GroupType.public, true, true, 1⟩],
            group_memberships := [⟨2, 1, 1, true, true⟩],
            nextId := 3 } ∧
    (∃ m ∈ ({ Store.empty with
            groups := [⟨1, "g", none, GroupType.public, true, true, 1⟩],
            group_memberships := [⟨2, 1, 1, true, true⟩],
            nextId := 3 } : Store).group_memberships,
      m.group_id = 1 ∧ m.user_id = 1 ∧ m.is_admin) := by
  have h := c5_create_group_atomic Store.empty
    ⟨"g", none, GroupType.public, true, true⟩ 1
  refine ⟨h.1, h.2 _ h.1 (by simp [Store.empty])
    ⟨1, "g", none, GroupType.public, true, true, 1⟩ (by simp [Store.empty])⟩

/-- C6 counterexample: `exThreadBoth` declares context `group` and also
carries `event_id = 7` (no such event exists).  The pydantic validator
accepts it — it only requires the id matching the context — and the handler
persists the thread carrying both ids, so "a request whose context is group
but which also carries an event_id is rejected" is false. -/
theorem c6_counterexample_extraneous_id_persisted :
    Discussions.validate_context exThreadBoth = .ok exThreadBoth ∧
    Discussions.create_thread_endpoint exDbC6 exThreadBoth 1 =
      .ok { exDbC6 with
            discussion_threads := [⟨5, "t", ThreadContext.group, some 1, some 7, 1⟩],
            nextId := 6 } :=
  ⟨rfl, rfl⟩

/-- C6 amended: before anything is persisted, the pydantic validator rejects
a request whose declared context has no (truthy) matching id — in
particular one carrying neither id — so no thread is created for it; an
extraneous id of the other context, however, is not rejected (see the
counterexample: it is persisted on the thread). -/
theorem c6_amended_matching_id_required
    (db : Store) (payload : DiscussionThreadCreate) (actor : Nat)
    (h : (payload.context = ThreadContext.group ∧
            truthyOptNat payload.group_id = false) ∨
         (payload.context = ThreadContext.event ∧
            truthyOptNat payload.event_id = false)) :
    Discussions.create_thread_endpoint db payload actor =
      .error (.validationError
        (if payload.context == ThreadContext.group then
          "group_id is required when context = group"
         else "event_id is required when context = event")) := by
  rcases h with ⟨hctx, hid⟩ | ⟨hctx, hid⟩ <;>
    simp [Discussions.create_thread_endpoint, Discussions.validate_context,
      hctx, hid, bind, Except.bind]

/-- C6 witness: a context-`group` payload with no `group_id` (only a stray
`event_id`) is rejected by validation with no thread created. -/
theorem c6_amended_matching_id_required_witness :
    Discussions.create_thread_endpoint exDbC6
        ⟨"t", ThreadContext.group, none, some 7⟩ 1 =
      .error (.validationError "group_id is required when context = group") :=
  c6_amended_matching_id_required exDbC6
    ⟨"t", ThreadContext.group, none, some 7⟩ 1 (Or.inl ⟨rfl, rfl⟩)

/-- C7 counterexample: on `exPollBad` (one question, one option) the
`create_poll` transaction raises its `BadRequest` only after the poll row
has been flushed: the transaction-local store carried at the raise already
differs from the initial store by that row, so "failures are detected
before any mutating store call is issued" is false. -/
theorem c7_counterexample_flush_before_failure :
    Polls.create_poll_txn exDbC7 1 exPollBad 1 =
      .error (.badRequest "Each question needs at least two options",
        exDbC7partial) ∧
    exDbC7partial.polls.length = exDbC7.polls.length + 1 :=
  ⟨rfl, rfl⟩

/-- C7 amended: business-rule failures may be detected only after mutating
store calls inside the request's transaction (the poll row is flushed
before the option-count check, the event row before the organizer-existence
check), but every failing request rolls back — the endpoints return an
error and no store, leaving the committed state unchanged: poll creation
with a question of fewer than two options always fails, as does event
creation naming a nonexistent organizer. -/
theorem c7_amended_failures_roll_back :
    (∀ (db : Store) (event_id : Nat) (payload : PollCreate) (actor : Nat),
      (∃ q ∈ payload.questions, q.options.length < 2) →
      (Polls.create_poll db event_id payload actor).isOk = false) ∧
    (∀ (db : Store) (payload : EventCreate) (actor : Nat),
      (∃ oid ∈ payload.organizer_ids,
        db.users.find? (fun u => u.id == oid) = none) →
      (Events.create_event db payload actor).isOk = false) := by
  constructor
  · intro db event_id payload actor hbad
    obtain ⟨e, s, hs⟩ := create_poll_questions_loop_error db.nextId
      payload.questions
      { db with
        polls := db.polls ++ [⟨db.nextId, event_id, payload.title, actor, true⟩],
        nextId := db.nextId + 1 }
      [] hbad
    cases hg : Polls.ensure_event_organizer db event_id actor with
    | error e2 =>
      simp [Polls.create_poll, get_session, Polls.create_poll_txn, hg,
        Except.isOk, Except.toBool]
    | ok u =>
      by_cases hemp : payload.questions.isEmpty
      · simp [Polls.create_poll, get_session, Polls.create_poll_txn, hg, hemp,
          Except.isOk, Except.toBool]
      · simp [Polls.create_poll, get_session, Polls.create_poll_txn, hg, hemp,
          hs, Except.isOk, Except.toBool]
  · intro db payload actor hbad
    obtain ⟨oid, hmem, hnone⟩ := hbad
    have hmem' : oid ∈ Events.organizer_id_set payload.organizer_ids actor :=
      mem_organizer_id_set_of_mem actor hmem
    obtain ⟨e, s, hs⟩ := check_organizers_each_error
      { db with
        events := db.events ++ [⟨db.nextId, payload.name, payload.description,
          payload.start_date, payload.end_date, payload.location,
          payload.is_private, actor, payload.group_id,
          payload.carpool_enabled, payload.shopping_list_enabled,
          payload.billetterie_enabled, payload.polls_enabled⟩],
        nextId := db.nextId + 1 }
      db.users _ ⟨oid, hmem', hnone⟩
    by_cases ht : truthyOptNat payload.group_id
    · cases hg : Events.ensure_can_manage_group_event db
          (payload.group_id.getD 0) actor with
      | error e2 =>
        simp [Events.create_event, get_session, Events.create_event_txn, ht,
          hg, Except.isOk, Except.toBool]
      | ok u =>
        simp [Events.create_event, get_session, Events.create_event_txn, ht,
          hg, hs, Except.isOk, Except.toBool]
    · simp [Events.create_event, get_session, Events.create_event_txn, ht,
        hs, Except.isOk, Except.toBool]

/-- C9: whenever `create_event` commits, the committed store holds an
`EventOrganizer` row linking the new event (id `db.nextId`) to the acting
user — the handler adds the actor's id to the organizer set before the
loop, so this needs no assumption on `payload.organizer_ids`. -/
theorem c9_creator_recorded_as_organizer
    (db : Store) (payload : EventCreate) (actor : Nat) (db' : Store)
    (h : Events.create_event db payload actor = .ok db') :
    (db'.event_organizers.find?
      (fun r => r.event_id == db.nextId && r.user_id == actor)).isSome = true := by
  have hflush : ∀ db1 : Store,
      Events.flush_event_organizers db.nextId db1
        (Events.organizer_id_set payload.organizer_ids actor) = db' →
      (db'.event_organizers.find?
        (fun r => r.event_id == db.nextId && r.user_id == actor)).isSome = true := by
    intro db1 hdb
    obtain ⟨r, hr, hre, hru⟩ := mem_flush_event_organizers db.nextId _ db1 actor
      (actor_mem_organizer_id_set payload.organizer_ids actor)
    rw [hdb] at hr
    exact List.find?_isSome.mpr ⟨r, hr, by simp [hre, hru]⟩
  simp only [Events.create_event, get_session, Events.create_event_txn] at h
  split at h
  · rename_i s heq
    injection h with h
    subst h
    split at heq
    · simp at heq
    · split at heq
      · simp at heq
      · injection heq with heq
        exact hflush _ heq
  · simp at h

/-- C9 witness: creating an event in `exDbC4` with an empty organizer list
still records the actor (user 2) as organizer of the new event. -/
theorem c9_creator_recorded_as_organizer_witness :
    (List.find? (fun r => r.event_id == 5 && r.user_id == 2)
      ((Events.create_event exDbC4
        ⟨"e", none, 0, 1, "loc", false, none, false, false, false, true, []⟩ 2
        ).toOption.getD Store.empty).event_organizers).isSome = true := by
  have h := c9_creator_recorded_as_organizer exDbC4
    ⟨"e", none, 0, 1, "loc", false, none, false, false, false, true, []⟩ 2
    { exDbC4 with
      events := exDbC4.events ++
        [⟨5, "e", none, 0, 1, "loc", false, 2, none, false, false, false, true⟩],
      event_organizers := exDbC4.event_organizers ++ [⟨6, 5, 2⟩],
      nextId := 7 } rfl
  exact h

/-- C10: creating a thread whose context references a group or event id
that does not exist fails `Forbidden` (403), never `NotFound` (404): the
membership guards query only the membership/participant tables, which under
referential integrity hold no row for the missing id, and raise 403 without
ever checking that the referenced group or event exists. -/
theorem c10_missing_context_gives_forbidden
    (db : Store) (actor : Nat) (title : String) (g e : Nat)
    (hg0 : g ≠ 0)
    (hgone : ∀ grp ∈ db.groups, grp.id ≠ g)
    (hfkm : ∀ m ∈ db.group_memberships, ∃ grp ∈ db.groups, grp.id = m.group_id)
    (he0 : e ≠ 0)
    (heone : ∀ ev ∈ db.events, ev.id ≠ e)
    (hfkp : ∀ p ∈ db.event_participants, ∃ ev ∈ db.events, ev.id = p.event_id)
    (hfko : ∀ o ∈ db.event_organizers, ∃ ev ∈ db.events, ev.id = o.event_id) :
    Discussions.create_thread_endpoint db ⟨title, ThreadContext.group, some g, none⟩ actor =
      .error (.forbidden "Access to group discussion denied") ∧
    Discussions.create_thread_endpoint db ⟨title, ThreadContext.event, none, some e⟩ actor =
      .error (.forbidden "Access to event discussion denied") ∧
    (ApiError.forbidden "Access to group discussion denied").statusCode = 403 := by
  have hmemb : db.group_memberships.find?
      (fun m => m.group_id == g && m.user_id == actor) = none := by
    rw [List.find?_eq_none]
    intro m hm
    obtain ⟨grp, hgrp, hid⟩ := hfkm m hm
    simp only [Bool.and_eq_true, beq_iff_eq, not_and]
    intro hmg
    exact absurd (hid.trans hmg) (hgone grp hgrp)
  have hpart : db.event_participants.find?
      (fun p => p.event_id == e && p.user_id == actor) = none := by
    rw [List.find?_eq_none]
    intro p hp
    obtain ⟨ev, hev, hid⟩ := hfkp p hp
    simp only [Bool.and_eq_true, beq_iff_eq, not_and]
    intro hpe
    exact absurd (hid.trans hpe) (heone ev hev)
  have horg : db.event_organizers.find?
      (fun o => o.event_id == e && o.user_id == actor) = none := by
    rw [List.find?_eq_none]
    intro o ho
    obtain ⟨ev, hev, hid⟩ := hfko o ho
    simp only [Bool.and_eq_true, beq_iff_eq, not_and]
    intro hoe
    exact absurd (hid.trans hoe) (heone ev hev)
  refine ⟨?_, ?_, rfl⟩
  · simp [Discussions.create_thread_endpoint, Discussions.validate_context,
      Discussions.create_thread, Discussions.ensure_group_member, truthyOptNat,
      hg0, hmemb, bind, Except.bind]
  · simp [Discussions.create_thread_endpoint, Discussions.validate_context,
      Discussions.create_thread, Discussions.ensure_event_participant,
      truthyOptNat, he0, hpart, horg, bind, Except.bind]

/-- C10 witness: in `exDbC6` neither group 9 nor event 9 exists; creating a
thread under either yields 403, not 404. -/
theorem c10_missing_context_gives_forbidden_witness :
    Discussions.create_thread_endpoint exDbC6 ⟨"t", ThreadContext.group, some 9, none⟩ 1 =
      .error (.forbidden "Access to group discussion denied") ∧
    Discussions.create_thread_endpoint exDbC6 ⟨"t", ThreadContext.event, none, some 9⟩ 1 =
      .error (.forbidden "Access to event discussion denied") := by
  have h := c10_missing_context_gives_forbidden exDbC6 1 "t" 9 9
    (by decide) (by decide) (by decide) (by decide) (by decide) (by decide)
    (by decide)
  exact ⟨h.1, h.2.1⟩

/-- C7 witness: concrete instances of both rollback conclusions — the
one-option poll on `exDbC7` and an event naming organizer 42, who has no
user row. -/
theorem c7_amended_failures_roll_back_witness :
    (Polls.create_poll exDbC7 1 exPollBad 1).isOk = false ∧
    (Events.create_event exDbC7
      ⟨"e", none, 0, 1, "loc", false, none, false, false, false, true, [42]⟩
      1).isOk = false :=
  ⟨c7_amended_failures_roll_back.1 exDbC7 1 exPollBad 1
    ⟨⟨"Q?", [⟨"only"⟩]⟩, by simp [exPollBad], by simp⟩,
   c7_amended_failures_roll_back.2 exDbC7
    ⟨"e", none, 0, 1, "loc", false, none, false, false, false, true, [42]⟩ 1
    ⟨42, by simp, rfl⟩⟩

/-- C3: idempotent vote replacement.  If the store has at most one vote row
for the (question, voter) key — the schema's unique constraint — then after
submitting {Q→A} and then {Q→B}, exactly one vote row exists for the key,
its option is B, and the read-time tallies shift by one vote from A to B. -/
theorem c3_vote_replace
    (db db1 db2 : Store) (poll_id voter qid optA optB : Nat)
    (huniq : (db.poll_votes.filter (Polls.voteKey qid voter)).length ≤ 1)
    (hAB : optA ≠ optB)
    (h1 : Polls.submit_poll_votes db poll_id [⟨qid, optA⟩] voter = .ok db1)
    (h2 : Polls.submit_poll_votes db1 poll_id [⟨qid, optB⟩] voter = .ok db2) :
    (∃ r, db2.poll_votes.filter (Polls.voteKey qid voter) = [r] ∧
      r.option_id = optB) ∧
    Polls.option_tally db2.poll_votes optA + 1 =
      Polls.option_tally db1.poll_votes optA ∧
    Polls.option_tally db2.poll_votes optB =
      Polls.option_tally db1.poll_votes optB + 1 := by
  have hdb1 : ∃ r1, db1.poll_votes.filter (Polls.voteKey qid voter) = [r1] ∧
      r1.option_id = optA := by
    rcases submit_single_ok_shape db poll_id voter qid optA db1 h1 with
      ⟨⟨r0, hr0⟩, hmap⟩ | ⟨hnone, happ⟩
    · have hfil : db.poll_votes.filter (Polls.voteKey qid voter) = [r0] :=
        filter_singleton_of_find? _ _ _ hr0 huniq
      exact ⟨{ r0 with option_id := optA },
        by rw [hmap]; exact filter_voteKey_map_set qid voter optA _ r0 hfil,
        rfl⟩
    · refine ⟨⟨db.nextId, qid, optA, voter⟩, ?_, rfl⟩
      rw [happ, List.filter_append, filter_nil_of_find?_none _ _ hnone]
      simp [Polls.voteKey]
  obtain ⟨r1, hfil1, hopt1⟩ := hdb1
  rcases submit_single_ok_shape db1 poll_id voter qid optB db2 h2 with
    ⟨⟨r2, hr2⟩, hmap2⟩ | ⟨hnone2, happ2⟩
  · refine ⟨⟨{ r1 with option_id := optB }, ?_, rfl⟩, ?_, ?_⟩
    · rw [hmap2]
      exact filter_voteKey_map_set qid voter optB _ r1 hfil1
    · rw [hmap2]
      exact (option_tally_map_set qid voter optB optA hAB _ r1 hfil1 hopt1).2
    · rw [hmap2]
      exact (option_tally_map_set qid voter optB optA hAB _ r1 hfil1 hopt1).1
  · have hsome := find?_of_filter_singleton (Polls.voteKey qid voter) _ r1 hfil1
    rw [hnone2] at hsome
    cases hsome

/-- C3 witness: in `exDbC3` (participant 1, active poll 1, question 1 with
options 1 and 2) voting option 1 then option 2 leaves one vote row with
option 2 and shifts the tallies accordingly. -/
theorem c3_vote_replace_witness :
    (∃ r, exDbC3revoted.poll_votes.filter (Polls.voteKey 1 1) = [r] ∧
      r.option_id = 2) ∧
    Polls.option_tally exDbC3revoted.poll_votes 1 + 1 =
      Polls.option_tally exDbC3voted.poll_votes 1 ∧
    Polls.option_tally exDbC3revoted.poll_votes 2 =
      Polls.option_tally exDbC3voted.poll_votes 2 + 1 :=
  c3_vote_replace exDbC3 exDbC3voted exDbC3revoted 1 1 1 1 2
    (by decide) (by decide) rfl rfl

/-- C8: the schema carries storage-level uniqueness constraints for
memberships, organizer/participant links, poll votes and shopping items,
but the `tickets` table declares none — in particular no unique index on
(ticket_type_id, purchaser_email) — and the handlers configure no
serializable/repeatable-read isolation and no retry.  Consequently the
check-then-insert race commits two tickets with the same purchaser email
for the same type: evaluated below on two concurrent same-email purchases
against `exDbC2`. -/
theorem c8_no_storage_constraint_for_tickets :
    SchemaConstraints.tickets_unique = [] ∧
    ¬ ["ticket_type_id", "purchaser_email"] ∈ SchemaConstraints.tickets_unique ∧
    SchemaConstraints.poll_votes_unique = [["question_id", "voter_id"]] ∧
    SchemaConstraints.group_memberships_unique = [["group_id", "user_id"]] ∧
    ((Tickets.purchase_two_concurrent exDbC2 1 exPurchase1 exPurchase1).tickets.filter
      (fun t => t.ticket_type_id == 1 && t.purchaser_email == "ann@x.com")).length = 2 := by
  refine ⟨rfl, by simp [SchemaConstraints.tickets_unique], rfl, rfl, rfl⟩

end SocialNet
